import Mathlib

/-
Verification of the geometric camera-targeting core of the satellite-feed
repository (src/app.py, src/shared_state.py) against its specification.

The Python floating-point expressions are embedded as exact real-number
computations: math.sin, math.cos, math.sqrt, math.atan2 become the
corresponding Mathlib functions on the reals, the Python float modulo
operator (with positive modulus) becomes the floor-based real remainder,
and code paths that raise a Python exception (division by zero) are
modelled with Option.
-/

namespace SatFeed

noncomputable section

open Real List

/-- math.radians: degrees to radians. -/
def radians (x : ℝ) : ℝ := x * π / 180

/-- math.degrees: radians to degrees. -/
def degrees (x : ℝ) : ℝ := x * 180 / π

/-- math.atan2 on the reals (the C and Python two-argument arctangent;
signed zeros do not exist on the reals, so the zero-argument conventions
collapse to atan2 0 0 = 0). -/
def atan2 (y x : ℝ) : ℝ :=
  if 0 < x then arctan (y / x)
  else if x < 0 then (if 0 ≤ y then arctan (y / x) + π else arctan (y / x) - π)
  else if 0 < y then π / 2
  else if y < 0 then -(π / 2)
  else 0

/-- Python float modulo for the cases used by the code: for a positive
modulus the result lies in the interval from 0 (inclusive) to the modulus
(exclusive). -/
def pymod (x y : ℝ) : ℝ := x - y * ⌊x / y⌋

/-- app.py, haversine_km (lines 88-97): the inner haversine term a,
a = sin(dphi/2)^2 + cos(phi1) * cos(phi2) * sin(dlambda/2)^2.
The source applies no clamp to this term. -/
def hav_a (lat1 lon1 lat2 lon2 : ℝ) : ℝ :=
  sin ((radians lat2 - radians lat1) / 2) ^ 2 +
    cos (radians lat1) * cos (radians lat2) * sin (radians (lon2 - lon1) / 2) ^ 2

/-- Helper closed form for the haversine central-angle expression as a
function of the inner term a: R * (2 * atan2 (sqrt a) (sqrt (1 - a))). -/
def hdist (a : ℝ) : ℝ := 6371 * (2 * atan2 (Real.sqrt a) (Real.sqrt (1 - a)))

/-- app.py, haversine_km (lines 88-97): great-circle distance in km,
R * (2 * atan2 (sqrt a) (sqrt (1 - a))) with R = 6371.0. -/
def haversine_km (lat1 lon1 lat2 lon2 : ℝ) : ℝ :=
  6371 * (2 * atan2 (Real.sqrt (hav_a lat1 lon1 lat2 lon2))
    (Real.sqrt (1 - hav_a lat1 lon1 lat2 lon2)))

/-- app.py, bearing_deg (lines 100-111): initial bearing in degrees,
normalized by (degrees theta + 360) % 360 with the Python float modulo. -/
def bearing_deg (lat1 lon1 lat2 lon2 : ℝ) : ℝ :=
  pymod (degrees (atan2 (sin (radians (lon2 - lon1)) * cos (radians lat2))
    (cos (radians lat1) * sin (radians lat2) -
      sin (radians lat1) * cos (radians lat2) * cos (radians (lon2 - lon1)))) + 360) 360

/-- app.py, calculate_3d_distance_km (lines 215-234): 3D straight-line
distance in km between satellite and target.  The inner helper
to_cartesian (radius = R_earth + alt, x = radius cos lat cos lon,
y = radius cos lat sin lon, z = radius sin lat, R_earth = 6371.0) is
inlined for both points. -/
def calculate_3d_distance_km (sat_lat sat_lon sat_alt_km tgt_lat tgt_lon tgt_alt_km : ℝ) : ℝ :=
  Real.sqrt
    (((6371 + tgt_alt_km) * cos (radians tgt_lat) * cos (radians tgt_lon) -
        (6371 + sat_alt_km) * cos (radians sat_lat) * cos (radians sat_lon)) ^ 2 +
     ((6371 + tgt_alt_km) * cos (radians tgt_lat) * sin (radians tgt_lon) -
        (6371 + sat_alt_km) * cos (radians sat_lat) * sin (radians sat_lon)) ^ 2 +
     ((6371 + tgt_alt_km) * sin (radians tgt_lat) -
        (6371 + sat_alt_km) * sin (radians sat_lat)) ^ 2)

/-- Modelled from the spec: the clamped haversine variant the spec calls
for in great_circle_distance_km ("implementation must clamp the inner a
term to [0,1] before inverse functions"); the source haversine_km applies
no such clamp. -/
def haversine_km_clamped (lat1 lon1 lat2 lon2 : ℝ) : ℝ :=
  6371 * (2 * atan2 (Real.sqrt (min 1 (max 0 (hav_a lat1 lon1 lat2 lon2))))
    (Real.sqrt (1 - min 1 (max 0 (hav_a lat1 lon1 lat2 lon2)))))

/-- app.py constant ALT_OFFSET_M (line 38): 50000.0.  Declared in the
source but never used by the live-KML range computation. -/
def ALT_OFFSET_M : ℝ := 50000

/-- Python min(iterable, key=...) semantics: None on an empty sequence
(min raises ValueError there), otherwise the first element attaining the
minimal key, found by a left fold that replaces the current best only on
a strictly smaller key. -/
def pymin_by {α : Type} (key : α → ℝ) : List α → Option α
  | [] => none
  | x :: xs => some (xs.foldl (fun best t => if key t < key best then t else best) x)

/-- app.py, stream_kml step 2 (lines 357-361): nearest-target selection by
horizontal great-circle distance only (spec name select_nearest_target). -/
def select_nearest_target (sat_lat sat_lon : ℝ) (targets : List (ℝ × ℝ)) : Option (ℝ × ℝ) :=
  pymin_by (fun t => haversine_km sat_lat sat_lon t.1 t.2) targets

/-- The LookAt camera parameters assembled by the live-KML route. -/
structure CameraOut where
  look_lat : ℝ
  look_lon : ℝ
  range_m : ℝ
  tilt : ℝ
  heading : ℝ

/-- Result of the live-KML route: either the silent empty 204 response
(the guard at lines 349-351) or a KML document carrying a LookAt block.
The code has no error path. -/
inductive KmlResponse
  | noContent
  | ok (c : CameraOut)

/-- app.py, stream_kml step 4 (line 372): elevation of the satellite seen
from the target; the Python conditional `... if dist_km else 90.0` tests
the truthiness of the float dist_km, i.e. whether it is nonzero. -/
def elev_deg_of (sat_alt_km dist_km : ℝ) : ℝ :=
  if dist_km = 0 then 90 else degrees (atan2 sat_alt_km dist_km)

/-- app.py, stream_kml step 4 (line 373): tilt = max(0.0, min(90.0, 90.0 - elev_deg)). -/
def tilt_of (sat_alt_km dist_km : ℝ) : ℝ :=
  max 0 (min 90 (90 - elev_deg_of sat_alt_km dist_km))

/-- app.py, stream_kml steps 1-4 (lines 355-373), the LookAt values
computed for the current satellite position and a nonempty target list:
the nearest target is Python min with the haversine key (the left fold of
pymin_by over t0 :: ts), the range is calculate_3d_distance_km * 1000
with no offset and no floor, then heading, elevation and tilt. -/
def stream_kml_body (sat_lat sat_lon sat_alt_km : ℝ) (t0 : ℝ × ℝ)
    (ts : List (ℝ × ℝ)) : CameraOut :=
  ⟨(ts.foldl (fun best t => if haversine_km sat_lat sat_lon t.1 t.2 <
        haversine_km sat_lat sat_lon best.1 best.2 then t else best) t0).1,
   (ts.foldl (fun best t => if haversine_km sat_lat sat_lon t.1 t.2 <
        haversine_km sat_lat sat_lon best.1 best.2 then t else best) t0).2,
   calculate_3d_distance_km sat_lat sat_lon sat_alt_km
     (ts.foldl (fun best t => if haversine_km sat_lat sat_lon t.1 t.2 <
        haversine_km sat_lat sat_lon best.1 best.2 then t else best) t0).1
     (ts.foldl (fun best t => if haversine_km sat_lat sat_lon t.1 t.2 <
        haversine_km sat_lat sat_lon best.1 best.2 then t else best) t0).2 0 * 1000,
   tilt_of sat_alt_km (haversine_km sat_lat sat_lon
     (ts.foldl (fun best t => if haversine_km sat_lat sat_lon t.1 t.2 <
        haversine_km sat_lat sat_lon best.1 best.2 then t else best) t0).1
     (ts.foldl (fun best t => if haversine_km sat_lat sat_lon t.1 t.2 <
        haversine_km sat_lat sat_lon best.1 best.2 then t else best) t0).2),
   bearing_deg sat_lat sat_lon
     (ts.foldl (fun best t => if haversine_km sat_lat sat_lon t.1 t.2 <
        haversine_km sat_lat sat_lon best.1 best.2 then t else best) t0).1
     (ts.foldl (fun best t => if haversine_km sat_lat sat_lon t.1 t.2 <
        haversine_km sat_lat sat_lon best.1 best.2 then t else best) t0).2⟩

/-- app.py, stream_kml (lines 340-476), reduced to the data the claims are
about: the guard on empty history / empty target set (204 No Content) at
lines 349-351 and the computed LookAt parameters.
positions_history[-1] is the last list element. -/
def stream_kml (positions : List (ℝ × ℝ × ℝ)) (targets : List (ℝ × ℝ)) : KmlResponse :=
  match positions.getLast? with
  | none => KmlResponse.noContent
  | some (sat_lat, sat_lon, sat_alt_km) =>
    match targets with
    | [] => KmlResponse.noContent
    | t0 :: ts => KmlResponse.ok (stream_kml_body sat_lat sat_lon sat_alt_km t0 ts)

/-- app.py, stream_kml step 5 (lines 383-396): the angular-rate
computation between the stored previous pose and the current one.
The code performs no timestamp validation; Python raises
ZeroDivisionError exactly when the interval now - prev_time is zero,
modelled by none; otherwise both rates are returned. -/
def compute_rate (prev_heading prev_tilt prev_time heading tilt now : ℝ) : Option (ℝ × ℝ) :=
  if now - prev_time = 0 then none
  else some (|heading - prev_heading| / (now - prev_time),
             |tilt - prev_tilt| / (now - prev_time))

/-- shared_state.py, class SharedState: the locked record of shared
values (the lock itself is serialization plumbing, outside the data
model). -/
structure SharedState where
  focus_mod : Bool
  heading_rate : ℝ
  tilt_rate : ℝ
  heading : ℝ
  tilt : ℝ

/-- shared_state.py, SharedState.__init__ (lines 6-12): note the initial
tilt of 100.0. -/
def initState : SharedState := ⟨false, 0, 0, 0, 100⟩

/-- shared_state.py, SharedState.set_values (lines 25-38): every argument
defaults to None and only non-None arguments overwrite the stored value
(the energy_use branch writes a field no reader ever consults and is
omitted). -/
def set_values (s : SharedState) (focus_mod : Option Bool)
    (heading_rate tilt_rate heading tilt : Option ℝ) : SharedState :=
  ⟨focus_mod.getD s.focus_mod, heading_rate.getD s.heading_rate,
   tilt_rate.getD s.tilt_rate, heading.getD s.heading, tilt.getD s.tilt⟩

/-- shared_state.py, SharedState.get_angles (lines 20-23): the read-only
snapshot (heading, tilt). -/
def get_angles (s : SharedState) : ℝ × ℝ := (s.heading, s.tilt)

/-- The three write paths into the shared state, as performed by the
routes in app.py: the orbit route (lines 284-287) writes heading 0 and
tilt 0 with the measured rates; the focus route (lines 392-395) writes
the bearing toward the selected target and the clamped tilt; the
set_state route (lines 246-254) forwards optional focus_mod and rate
values and never touches heading or tilt. -/
inductive RouteEvent
  | orbit (heading_rate tilt_rate : ℝ)
  | focus (sat_lat sat_lon sat_alt_km tgt_lat tgt_lon heading_rate tilt_rate : ℝ)
  | setState (focus_mod : Option Bool) (heading_rate tilt_rate : Option ℝ)

/-- Effect of one route write on the shared state. -/
def routeStep (s : SharedState) : RouteEvent → SharedState
  | RouteEvent.orbit hr tr => set_values s none (some hr) (some tr) (some 0) (some 0)
  | RouteEvent.focus slat slon salt tlat tlon hr tr =>
      set_values s none (some hr) (some tr)
        (some (bearing_deg slat slon tlat tlon))
        (some (tilt_of salt (haversine_km slat slon tlat tlon)))
  | RouteEvent.setState f hr tr => set_values s f hr tr none none

/-- A tracking session: the shared state reached from the initial state
after a sequence of route writes. -/
def runSession (evs : List RouteEvent) : SharedState :=
  evs.foldl routeStep initState

/-- Whether a route event writes the tilt field (the two camera routes
do, the set_state route does not). -/
def writesTilt : RouteEvent → Bool
  | RouteEvent.orbit _ _ => true
  | RouteEvent.focus _ _ _ _ _ _ _ => true
  | RouteEvent.setState _ _ _ => false

/-- app.py constant TARGET_INTERVAL_S (line 44). -/
def TARGET_INTERVAL_S : ℝ := 60

/-- app.py (lines 125 and 149): steps = int(window_minutes * 60 / TARGET_INTERVAL_S),
identical in precompute_targets and precompute_shifted_targets. -/
def num_steps (window_minutes : ℝ) : ℕ := (⌊window_minutes * 60 / TARGET_INTERVAL_S⌋).toNat

/-- app.py, precompute_targets (lines 114-134): the ground-projected
satellite position at each step.  Orbital propagation (skyfield) is the
external black box of the spec, abstracted as the function propagate from
the step index to (lat, lon). -/
def precompute_targets (propagate : ℕ → ℝ × ℝ) (window_minutes : ℝ) : List (ℝ × ℝ) :=
  (List.range (num_steps window_minutes)).map propagate

/-- One loop iteration of app.py precompute_shifted_targets (lines
154-185), threading the consumed-draw counter, the previous point and the
accumulated list.  The random source is a stream rng of draws in [0, 1);
random.choice of the two directions and random.uniform(0, max_shift_km)
are modelled as threshold and scaling of one draw each. -/
def shiftedStep (propagate : ℕ → ℝ × ℝ) (rng : ℕ → ℝ) (max_shift_km shift_prob : ℝ)
    (st : ℕ × Option (ℝ × ℝ) × List (ℝ × ℝ)) (i : ℕ) : ℕ × Option (ℝ × ℝ) × List (ℝ × ℝ) :=
  match st.2.1 with
  | none => (st.1, some (propagate i), st.2.2 ++ [propagate i])
  | some (prev_lat, prev_lon) =>
    if rng st.1 < shift_prob ∧ max_shift_km > 0 then
      (st.1 + 4,
       some (shiftedPoint propagate rng max_shift_km st.1 prev_lat prev_lon i),
       st.2.2 ++ [shiftedPoint propagate rng max_shift_km st.1 prev_lat prev_lon i])
    else (st.1 + 1, some (propagate i), st.2.2 ++ [propagate i])
where
  /-- The laterally shifted point of lines 165-182: direction plus or
  minus 90 degrees from the bearing off the previous point, magnitude up
  to max_shift_km, applied with either sign. -/
  shiftedPoint (propagate : ℕ → ℝ × ℝ) (rng : ℕ → ℝ) (max_shift_km : ℝ)
      (k : ℕ) (prev_lat prev_lon : ℝ) (i : ℕ) : ℝ × ℝ :=
    let lat := (propagate i).1
    let lon := (propagate i).2
    let bearing := bearing_deg prev_lat prev_lon lat lon
    let direction : ℝ := if rng (k + 1) < 1 / 2 then -90 else 90
    let shift_angle := radians (pymod (bearing + direction) 360)
    let shift_km := rng (k + 2) * max_shift_km
    let d_lat := shift_km / 6371 * cos shift_angle
    let d_lon := shift_km / 6371 * sin shift_angle / cos (radians lat)
    if rng (k + 3) < 1 / 2 then (lat - degrees d_lat, lon - degrees d_lon)
    else (lat + degrees d_lat, lon + degrees d_lon)

/-- app.py, precompute_shifted_targets (lines 137-188): the produced
target list. -/
def precompute_shifted_targets (propagate : ℕ → ℝ × ℝ) (window_minutes : ℝ)
    (rng : ℕ → ℝ) (max_shift_km shift_prob : ℝ) : List (ℝ × ℝ) :=
  ((List.range (num_steps window_minutes)).foldl
    (shiftedStep propagate rng max_shift_km shift_prob) (0, none, [])).2.2

/-! Basic facts about the embedded primitives. -/

lemma radians_zero : radians 0 = 0 := by simp [radians]

lemma atan2_zero_zero : atan2 0 0 = 0 := by norm_num [atan2]

lemma atan2_of_pos {y x : ℝ} (hx : 0 < x) : atan2 y x = arctan (y / x) := by
  rw [atan2, if_pos hx]

lemma pymod_nonneg (x : ℝ) {y : ℝ} (hy : 0 < y) : 0 ≤ pymod x y := by
  have h : pymod x y = y * Int.fract (x / y) := by
    rw [pymod, Int.fract]
    field_simp
  rw [h]
  exact mul_nonneg hy.le (Int.fract_nonneg (x / y))

lemma pymod_lt (x : ℝ) {y : ℝ} (hy : 0 < y) : pymod x y < y := by
  have h : pymod x y = y * Int.fract (x / y) := by
    rw [pymod, Int.fract]
    field_simp
  rw [h]
  calc y * Int.fract (x / y) < y * 1 := by
        exact mul_lt_mul_of_pos_left (Int.fract_lt_one (x / y)) hy
    _ = y := mul_one y

lemma hav_a_self (lat lon : ℝ) : hav_a lat lon lat lon = 0 := by
  simp [hav_a, sub_self, radians_zero]

lemma haversine_self (lat lon : ℝ) : haversine_km lat lon lat lon = 0 := by
  rw [haversine_km, hav_a_self]
  norm_num [atan2_of_pos, Real.sqrt_one]

lemma bearing_self (lat lon : ℝ) : bearing_deg lat lon lat lon = 0 := by
  have hy : cos (radians lat) * sin (radians lat) -
      sin (radians lat) * cos (radians lat) * cos (radians (lon - lon)) = 0 := by
    rw [sub_self, radians_zero, Real.cos_zero]
    ring
  rw [bearing_deg, hy, sub_self, radians_zero, Real.sin_zero, zero_mul, atan2_zero_zero]
  have hd : degrees 0 = 0 := by simp [degrees]
  rw [hd, zero_add, pymod]
  norm_num

/-- C7: for every GeoPoint, the great-circle distance from the point to
itself is exactly zero: the inner haversine term vanishes identically, so
the distance is R * 2 * atan2 0 1 = 0. -/
theorem C7_haversine_self_eq_zero (lat lon : ℝ) : haversine_km lat lon lat lon = 0 :=
  haversine_self lat lon

/-- C8: the bearing computed by bearing_deg always lies in the half-open
interval from 0 (inclusive) to 360 (exclusive): the final normalization
(degrees theta + 360) % 360 lands there for every input. -/
theorem C8_bearing_in_range (lat1 lon1 lat2 lon2 : ℝ) :
    0 ≤ bearing_deg lat1 lon1 lat2 lon2 ∧ bearing_deg lat1 lon1 lat2 lon2 < 360 := by
  constructor
  · exact pymod_nonneg _ (by norm_num)
  · exact pymod_lt _ (by norm_num)

/-- C2 (corrected): with an empty candidate target set the live-KML route
does not raise a distinct error; it answers the silent empty 204 response
(the guard at app.py lines 349-351), and the nearest-target selection is
never invoked on an empty sequence (modelled: it would yield none, the
ValueError of Python min). -/
theorem C2_empty_targets_silent_no_content (positions : List (ℝ × ℝ × ℝ))
    (sat_lat sat_lon : ℝ) (targets : List (ℝ × ℝ)) (h : targets = []) :
    stream_kml positions targets = KmlResponse.noContent ∧
    select_nearest_target sat_lat sat_lon targets = none := by
  subst h
  constructor
  · rw [stream_kml]
    cases positions.getLast? with
    | none => rfl
    | some sat => rfl
  · rfl

/-- C2 witness. -/
theorem C2_empty_targets_witness :
    stream_kml [((0 : ℝ), 0, 400)] [] = KmlResponse.noContent ∧
    select_nearest_target 0 0 [] = none :=
  C2_empty_targets_silent_no_content [((0 : ℝ), 0, 400)] 0 0 [] rfl

/-- C2 counterexample to the claim as stated: at a concrete input with a
nonempty position history and no candidate targets the code produces the
silent no-content default response rather than reporting an
EmptyTargetSetError (no error path exists in the code). -/
theorem C2_counterexample :
    stream_kml [((0 : ℝ), 0, 420)] [] = KmlResponse.noContent ∧
    select_nearest_target (0 : ℝ) 0 [] = none :=
  ⟨rfl, rfl⟩

/-- C3 (corrected): the rate computation validates nothing about the
timestamp order.  It fails (Python ZeroDivisionError, modelled none)
exactly when the two timestamps are equal, and for every strictly
decreasing pair of timestamps it returns the two quotients - negative
rates - instead of failing. -/
theorem C3_compute_rate_no_interval_check
    (prev_heading prev_tilt prev_time heading tilt now : ℝ) :
    (compute_rate prev_heading prev_tilt prev_time heading tilt now = none ↔
      now = prev_time) ∧
    (now ≠ prev_time →
      compute_rate prev_heading prev_tilt prev_time heading tilt now =
        some (|heading - prev_heading| / (now - prev_time),
              |tilt - prev_tilt| / (now - prev_time))) := by
  constructor
  · rw [compute_rate]
    by_cases h : now - prev_time = 0
    · simp [h, sub_eq_zero.mp h]
    · simp [h, sub_eq_zero.not.mp h]
  · intro h
    rw [compute_rate, if_neg (sub_ne_zero.mpr h)]

/-- C3 witness: at equal timestamps the computation fails (the division
by the zero-length interval), and with the current timestamp strictly
before the previous one it returns a value. -/
theorem C3_compute_rate_witness :
    compute_rate 0 0 5 1 2 5 = none ∧
    compute_rate 10 20 1 30 40 0 =
      some (|(30 : ℝ) - 10| / (0 - 1), |(40 : ℝ) - 20| / (0 - 1)) :=
  ⟨(C3_compute_rate_no_interval_check 0 0 5 1 2 5).1.mpr rfl,
   (C3_compute_rate_no_interval_check 10 20 1 30 40 0).2 (by norm_num)⟩

/-- C3 counterexample to the claim as stated: called with the current
timestamp strictly before the previous one (curr_t = 0 < 1 = prev_t) the
code does not fail: it returns the pair of negative rates (-20, -20). -/
theorem C3_counterexample :
    compute_rate 10 20 1 30 40 0 = some (-20, -20) := by
  rw [compute_rate]
  norm_num

/-! Session-state invariant (claim C9). -/

lemma tilt_of_nonneg (a d : ℝ) : 0 ≤ tilt_of a d := le_max_left 0 _

lemma tilt_of_le_90 (a d : ℝ) : tilt_of a d ≤ 90 :=
  max_le (by norm_num) (min_le_left 90 _)

lemma routeStep_tilt_writesTilt {e : RouteEvent} (s : SharedState)
    (h : writesTilt e = true) :
    0 ≤ (routeStep s e).tilt ∧ (routeStep s e).tilt ≤ 90 := by
  cases e with
  | orbit hr tr => constructor <;> simp [routeStep, set_values]
  | focus slat slon salt tlat tlon hr tr =>
      constructor
      · simpa [routeStep, set_values] using tilt_of_nonneg salt (haversine_km slat slon tlat tlon)
      · simpa [routeStep, set_values] using tilt_of_le_90 salt (haversine_km slat slon tlat tlon)
  | setState f hr tr => simp [writesTilt] at h

lemma routeStep_tilt_preserve (s : SharedState) (e : RouteEvent)
    (h : 0 ≤ s.tilt ∧ s.tilt ≤ 90) :
    0 ≤ (routeStep s e).tilt ∧ (routeStep s e).tilt ≤ 90 := by
  cases e with
  | orbit hr tr => constructor <;> simp [routeStep, set_values]
  | focus slat slon salt tlat tlon hr tr =>
      exact routeStep_tilt_writesTilt s rfl
  | setState f hr tr =>
      simpa [routeStep, set_values] using h

lemma foldl_routeStep_preserve (evs : List RouteEvent) (s : SharedState)
    (h : 0 ≤ s.tilt ∧ s.tilt ≤ 90) :
    0 ≤ (evs.foldl routeStep s).tilt ∧ (evs.foldl routeStep s).tilt ≤ 90 := by
  induction evs generalizing s with
  | nil => exact h
  | cons e rest ih => exact ih (routeStep s e) (routeStep_tilt_preserve s e h)

lemma foldl_routeStep_after_camera (evs : List RouteEvent) (s : SharedState)
    (h : ∃ e ∈ evs, writesTilt e = true) :
    0 ≤ (evs.foldl routeStep s).tilt ∧ (evs.foldl routeStep s).tilt ≤ 90 := by
  induction evs generalizing s with
  | nil => exact absurd h (by simp)
  | cons e rest ih =>
      by_cases he : writesTilt e = true
      · exact foldl_routeStep_preserve rest (routeStep s e) (routeStep_tilt_writesTilt s he)
      · rcases h with ⟨e2, he2, hw⟩
        rcases List.mem_cons.mp he2 with rfl | hmem
        · exact absurd hw he
        · exact ih (routeStep s e) ⟨e2, hmem, hw⟩

/-- C9 (corrected): after any session in which at least one camera route
(orbit or focus) has written the shared state, the tilt returned by the
read-only angles accessor lies in the closed interval from 0 to 90, and
every later write keeps it there.  (The claim as stated is false of the
initial state: see the counterexample.) -/
theorem C9_tilt_in_range_after_camera_update (evs : List RouteEvent)
    (h : ∃ e ∈ evs, writesTilt e = true) :
    0 ≤ (get_angles (runSession evs)).2 ∧ (get_angles (runSession evs)).2 ≤ 90 :=
  foldl_routeStep_after_camera evs initState h

/-- C9 witness: a session consisting of one orbit-route write. -/
theorem C9_tilt_witness :
    0 ≤ (get_angles (runSession [RouteEvent.orbit 1 1])).2 ∧
    (get_angles (runSession [RouteEvent.orbit 1 1])).2 ≤ 90 :=
  C9_tilt_in_range_after_camera_update [RouteEvent.orbit 1 1]
    ⟨RouteEvent.orbit 1 1, by simp, rfl⟩

/-- C9 counterexample to the claim as stated: in the initial state, before
any camera computation has run, the angles accessor reports tilt 100.0,
which is outside the interval from 0 to 90. -/
theorem C9_counterexample :
    (get_angles (runSession [])).2 = 100 ∧ ¬ ((100 : ℝ) ≤ 90) := by
  constructor
  · rfl
  · norm_num

/-! Target-set generation (claim C10). -/

lemma shiftedStep_acc (propagate : ℕ → ℝ × ℝ) (rng : ℕ → ℝ) (max_shift_km : ℝ)
    (hrng : ∀ n, 0 ≤ rng n) (l : List ℕ) :
    ∀ (k : ℕ) (p : Option (ℝ × ℝ)) (acc : List (ℝ × ℝ)),
    (l.foldl (shiftedStep propagate rng max_shift_km 0) (k, p, acc)).2.2 =
      acc ++ l.map propagate := by
  induction l with
  | nil => intro k p acc; simp
  | cons i rest ih =>
      intro k p acc
      rw [List.foldl_cons, List.map_cons]
      cases p with
      | none =>
          rw [show shiftedStep propagate rng max_shift_km 0 (k, none, acc) i =
            (k, some (propagate i), acc ++ [propagate i]) from rfl, ih]
          simp
      | some prev =>
          have hcond : ¬ (rng k < 0 ∧ max_shift_km > 0) := by
            intro hc
            exact absurd hc.1 (not_lt.mpr (hrng k))
          have hstep : shiftedStep propagate rng max_shift_km 0 (k, some prev, acc) i =
              (k + 1, some (propagate i), acc ++ [propagate i]) := by
            obtain ⟨pa, pb⟩ := prev
            rw [shiftedStep]
            simp only [if_neg hcond]
          rw [hstep, ih]
          simp

/-- C10: with shift probability zero the shifted generator produces,
for every propagation function, window, random stream of nonnegative
draws, and maximum shift magnitude, exactly the list produced by the
plain generator: the perturbation branch is never taken. -/
theorem C10_shift_prob_zero_identical (propagate : ℕ → ℝ × ℝ)
    (window_minutes : ℝ) (rng : ℕ → ℝ) (max_shift_km : ℝ)
    (hrng : ∀ n, 0 ≤ rng n) :
    precompute_shifted_targets propagate window_minutes rng max_shift_km 0 =
      precompute_targets propagate window_minutes := by
  rw [precompute_shifted_targets, precompute_targets,
    shiftedStep_acc propagate rng max_shift_km hrng (List.range (num_steps window_minutes)) 0 none []]
  simp

/-- C10 witness: a concrete propagation function, window, and stream. -/
theorem C10_shift_prob_zero_witness :
    precompute_shifted_targets (fun n => ((n : ℝ), (n : ℝ))) 3 (fun _ => 0) 5 0 =
      precompute_targets (fun n => ((n : ℝ), (n : ℝ))) 3 :=
  C10_shift_prob_zero_identical (fun n => ((n : ℝ), (n : ℝ))) 3 (fun _ => 0) 5
    (fun _ => le_refl 0)

/-! The inner haversine term on valid latitudes (claim C4). -/

lemma radians_mem_of_abs_le_90 {lat : ℝ} (h : |lat| ≤ 90) :
    -(π / 2) ≤ radians lat ∧ radians lat ≤ π / 2 := by
  obtain ⟨h1, h2⟩ := abs_le.mp h
  rw [radians]
  constructor
  · nlinarith [Real.pi_pos]
  · nlinarith [Real.pi_pos]

lemma cos_radians_nonneg {lat : ℝ} (h : |lat| ≤ 90) : 0 ≤ cos (radians lat) := by
  obtain ⟨hl, hu⟩ := radians_mem_of_abs_le_90 h
  exact Real.cos_nonneg_of_neg_pi_div_two_le_of_le hl hu

lemma hav_a_nonneg (lat1 lon1 lat2 lon2 : ℝ)
    (h1 : |lat1| ≤ 90) (h2 : |lat2| ≤ 90) : 0 ≤ hav_a lat1 lon1 lat2 lon2 := by
  rw [hav_a]
  have hc := mul_nonneg (cos_radians_nonneg h1) (cos_radians_nonneg h2)
  positivity

lemma hav_a_le_one (lat1 lon1 lat2 lon2 : ℝ)
    (h1 : |lat1| ≤ 90) (h2 : |lat2| ≤ 90) : hav_a lat1 lon1 lat2 lon2 ≤ 1 := by
  rw [hav_a]
  have hc1 := cos_radians_nonneg h1
  have hc2 := cos_radians_nonneg h2
  have hs2 : sin (radians (lon2 - lon1) / 2) ^ 2 ≤ 1 := Real.sin_sq_le_one _
  have e3 : sin ((radians lat2 - radians lat1) / 2) ^ 2 =
      1 / 2 - cos (2 * ((radians lat2 - radians lat1) / 2)) / 2 :=
    Real.sin_sq_eq_half_sub _
  have e3h : 2 * ((radians lat2 - radians lat1) / 2) = radians lat2 - radians lat1 := by ring
  rw [e3h] at e3
  have e1 : cos (radians lat2 - radians lat1) =
      cos (radians lat2) * cos (radians lat1) + sin (radians lat2) * sin (radians lat1) :=
    Real.cos_sub _ _
  have e2 : cos (radians lat2 + radians lat1) =
      cos (radians lat2) * cos (radians lat1) - sin (radians lat2) * sin (radians lat1) :=
    Real.cos_add _ _
  have e4 : cos (radians lat2 + radians lat1) ≤ 1 := Real.cos_le_one _
  have hprod : cos (radians lat1) * cos (radians lat2) *
      sin (radians (lon2 - lon1) / 2) ^ 2 ≤ cos (radians lat1) * cos (radians lat2) := by
    nlinarith [mul_nonneg hc1 hc2]
  nlinarith [e1, e2, e3, e4, hprod]

/-- C4: on valid latitudes the inner haversine term a always lies in
[0, 1] in exact arithmetic, so both square-root arguments a and 1 - a are
nonnegative - no NaN or domain error can arise from the inverse
functions - and the source haversine_km coincides with the clamped
variant the spec describes (the clamp is the identity there). -/
theorem C4_hav_inner_term_safe (lat1 lon1 lat2 lon2 : ℝ)
    (h1 : |lat1| ≤ 90) (h2 : |lat2| ≤ 90) :
    0 ≤ hav_a lat1 lon1 lat2 lon2 ∧ hav_a lat1 lon1 lat2 lon2 ≤ 1 ∧
    haversine_km lat1 lon1 lat2 lon2 = haversine_km_clamped lat1 lon1 lat2 lon2 := by
  have h0 := hav_a_nonneg lat1 lon1 lat2 lon2 h1 h2
  have hle := hav_a_le_one lat1 lon1 lat2 lon2 h1 h2
  refine ⟨h0, hle, ?_⟩
  rw [haversine_km, haversine_km_clamped, max_eq_right h0, min_eq_right hle]

/-- C4 witness. -/
theorem C4_hav_inner_term_witness :
    0 ≤ hav_a 10 20 (-30) 40 ∧ hav_a 10 20 (-30) 40 ≤ 1 ∧
    haversine_km 10 20 (-30) 40 = haversine_km_clamped 10 20 (-30) 40 :=
  C4_hav_inner_term_safe 10 20 (-30) 40 (by norm_num) (by norm_num)

/-! The coincident satellite/target view (claim C6). -/

lemma calc3d_self (lat lon alt : ℝ) (h : 0 ≤ alt) :
    calculate_3d_distance_km lat lon alt lat lon 0 = alt := by
  have hlat := Real.sin_sq_add_cos_sq (radians lat)
  have hlon := Real.sin_sq_add_cos_sq (radians lon)
  have hsq : calculate_3d_distance_km lat lon alt lat lon 0 = Real.sqrt (alt ^ 2) := by
    unfold calculate_3d_distance_km
    congr 1
    linear_combination (alt ^ 2 * cos (radians lat) ^ 2) * hlon + alt ^ 2 * hlat
  rw [hsq, Real.sqrt_sq h]

lemma stream_kml_single (sat_lat sat_lon sat_alt_km tgt_lat tgt_lon : ℝ) :
    stream_kml [(sat_lat, sat_lon, sat_alt_km)] [(tgt_lat, tgt_lon)] =
      KmlResponse.ok ⟨tgt_lat, tgt_lon,
        calculate_3d_distance_km sat_lat sat_lon sat_alt_km tgt_lat tgt_lon 0 * 1000,
        tilt_of sat_alt_km (haversine_km sat_lat sat_lon tgt_lat tgt_lon),
        bearing_deg sat_lat sat_lon tgt_lat tgt_lon⟩ := rfl

lemma stream_kml_coincident (lat lon alt : ℝ) (h : 0 ≤ alt) :
    stream_kml [(lat, lon, alt)] [(lat, lon)] =
      KmlResponse.ok ⟨lat, lon, alt * 1000, 0, 0⟩ ∧
    elev_deg_of alt (haversine_km lat lon lat lon) = 90 := by
  have helev : elev_deg_of alt (haversine_km lat lon lat lon) = 90 := by
    rw [haversine_self, elev_deg_of, if_pos rfl]
  refine ⟨?_, helev⟩
  have htilt : tilt_of alt (haversine_km lat lon lat lon) = 0 := by
    rw [tilt_of, helev]
    norm_num
  rw [stream_kml_single, calc3d_self lat lon alt h, bearing_self, htilt]

/-- C6 (corrected): when the satellite ground projection coincides with
the target, the camera view has elevation 90 degrees, tilt exactly 0,
heading exactly 0 (degenerate bearing), and a range equal exactly to the
satellite altitude in meters: no offset is subtracted and no 1.0 floor is
applied by the code. -/
theorem C6_coincident_straight_down (lat lon alt : ℝ) (h : 0 ≤ alt) :
    stream_kml [(lat, lon, alt)] [(lat, lon)] =
      KmlResponse.ok ⟨lat, lon, alt * 1000, 0, 0⟩ ∧
    elev_deg_of alt (haversine_km lat lon lat lon) = 90 :=
  stream_kml_coincident lat lon alt h

/-- C6 witness: satellite at (1, 2) with altitude 3 km over target (1, 2)
yields heading 0, tilt 0, range 3000 m. -/
theorem C6_coincident_witness :
    stream_kml [((1 : ℝ), 2, 3)] [((1 : ℝ), 2)] =
      KmlResponse.ok ⟨1, 2, 3 * 1000, 0, 0⟩ ∧
    elev_deg_of 3 (haversine_km 1 2 1 2) = 90 :=
  C6_coincident_straight_down 1 2 3 (by norm_num)

/-- C6 counterexample to the claim as stated: for a satellite at (5, 7)
with altitude 0 coinciding with its target, the code renders range 0,
whereas the claimed formula max(1.0, altitude in meters minus the range
offset) gives 1.0 with offset 0 - the floor is absent from the code. -/
theorem C6_counterexample :
    stream_kml [((5 : ℝ), 7, 0)] [((5 : ℝ), 7)] = KmlResponse.ok ⟨5, 7, 0, 0, 0⟩ ∧
    (0 : ℝ) ≠ max 1 (0 * 1000 - 0) := by
  constructor
  · have h := (stream_kml_coincident 5 7 0 (le_refl 0)).1
    rw [h]
    norm_num
  · norm_num

/-! The rendered camera range (claim C1). -/

lemma select_nearest_cons (sat_lat sat_lon : ℝ) (t0 : ℝ × ℝ) (ts : List (ℝ × ℝ)) :
    select_nearest_target sat_lat sat_lon (t0 :: ts) =
      some (ts.foldl (fun best t => if haversine_km sat_lat sat_lon t.1 t.2 <
        haversine_km sat_lat sat_lon best.1 best.2 then t else best) t0) := rfl

lemma stream_kml_of_last {positions : List (ℝ × ℝ × ℝ)}
    {sat_lat sat_lon sat_alt_km : ℝ} (t0 : ℝ × ℝ) (ts : List (ℝ × ℝ))
    (hlast : positions.getLast? = some (sat_lat, sat_lon, sat_alt_km)) :
    stream_kml positions (t0 :: ts) =
      KmlResponse.ok (stream_kml_body sat_lat sat_lon sat_alt_km t0 ts) := by
  unfold stream_kml
  rw [hlast]

/-- C1 (corrected): whenever the live-KML route renders a view, the range
it renders equals exactly slant distance in km times 1000: the code
subtracts no offset (ALT_OFFSET_M is declared but unused) and applies no
1.0 floor. -/
theorem C1_range_is_slant_times_1000 (positions : List (ℝ × ℝ × ℝ))
    (targets : List (ℝ × ℝ)) (sat_lat sat_lon sat_alt_km tgt_lat tgt_lon : ℝ)
    (hlast : positions.getLast? = some (sat_lat, sat_lon, sat_alt_km))
    (hsel : select_nearest_target sat_lat sat_lon targets = some (tgt_lat, tgt_lon)) :
    ∃ c : CameraOut, stream_kml positions targets = KmlResponse.ok c ∧
      c.range_m =
        calculate_3d_distance_km sat_lat sat_lon sat_alt_km tgt_lat tgt_lon 0 * 1000 := by
  cases targets with
  | nil => exact absurd hsel (by simp [select_nearest_target, pymin_by])
  | cons t0 ts =>
      have hfold : (ts.foldl (fun best t => if haversine_km sat_lat sat_lon t.1 t.2 <
          haversine_km sat_lat sat_lon best.1 best.2 then t else best) t0) =
            (tgt_lat, tgt_lon) := by
        have h2 := hsel
        rw [select_nearest_cons] at h2
        exact Option.some.inj h2
      refine ⟨stream_kml_body sat_lat sat_lon sat_alt_km t0 ts,
        stream_kml_of_last t0 ts hlast, ?_⟩
      rw [stream_kml_body, hfold]

/-- C1 witness. -/
theorem C1_range_witness :
    ∃ c : CameraOut, stream_kml [((1 : ℝ), 2, 3)] [((4 : ℝ), 5)] = KmlResponse.ok c ∧
      c.range_m = calculate_3d_distance_km 1 2 3 4 5 0 * 1000 :=
  C1_range_is_slant_times_1000 [((1 : ℝ), 2, 3)] [((4 : ℝ), 5)] 1 2 3 4 5 rfl rfl

/-- C1 counterexample to the claim as stated: satellite directly above
the selected target (0, 0) at altitude 400 km.  The slant distance is
exactly 400 km, the code renders range 400000 m, but the claimed formula
max(1.0, slant * 1000 - range_offset_m), taken at the ALT_OFFSET_M offset
of the source (50000.0), gives 350000 m. -/
theorem C1_counterexample :
    ∃ c : CameraOut, stream_kml [((0 : ℝ), 0, 400)] [((0 : ℝ), 0)] = KmlResponse.ok c ∧
      c.range_m = 400000 ∧
      max 1 (calculate_3d_distance_km 0 0 400 0 0 0 * 1000 - ALT_OFFSET_M) = 350000 ∧
      (400000 : ℝ) ≠ 350000 := by
  have hd : calculate_3d_distance_km 0 0 400 0 0 0 = 400 := calc3d_self 0 0 400 (by norm_num)
  refine ⟨stream_kml_body 0 0 400 ((0 : ℝ), 0) [], rfl, ?_, ?_, by norm_num⟩
  · show calculate_3d_distance_km 0 0 400 ((0 : ℝ), (0 : ℝ)).1 ((0 : ℝ), (0 : ℝ)).2 0 * 1000
        = 400000
    rw [show ((0 : ℝ), (0 : ℝ)).1 = (0 : ℝ) from rfl, show ((0 : ℝ), (0 : ℝ)).2 = (0 : ℝ) from rfl,
      hd]
    norm_num
  · rw [hd, ALT_OFFSET_M]
    norm_num

/-! Nearest-target selection (claim C5): the Python min fold returns the
first element attaining the minimal key. -/

lemma foldl_min_spec {α : Type} (key : α → ℝ) :
    ∀ (xs : List α) (x : α),
    ∃ pre suf,
      x :: xs = pre ++ (xs.foldl (fun best t => if key t < key best then t else best) x) :: suf ∧
      (∀ t ∈ x :: xs,
        key (xs.foldl (fun best t => if key t < key best then t else best) x) ≤ key t) ∧
      (∀ t ∈ pre,
        key (xs.foldl (fun best t => if key t < key best then t else best) x) < key t) := by
  intro xs
  induction xs with
  | nil =>
      intro x
      refine ⟨[], [], rfl, ?_, by simp⟩
      intro t ht
      rw [List.mem_singleton] at ht
      subst ht
      simp only [List.foldl_nil]
      exact le_refl _
  | cons hd tl ih =>
      intro x
      simp only [List.foldl_cons]
      by_cases hlt : key hd < key x
      · rw [if_pos hlt]
        obtain ⟨pre, suf, hdec, hmin, hpre⟩ := ih hd
        refine ⟨x :: pre, suf, ?_, ?_, ?_⟩
        · rw [List.cons_append, ← hdec]
        · intro t ht
          rcases List.mem_cons.mp ht with rfl | hmem
          · exact (hmin hd (List.mem_cons_self hd tl)).trans hlt.le
          · exact hmin t hmem
        · intro t ht
          rcases List.mem_cons.mp ht with rfl | hmem
          · exact lt_of_le_of_lt (hmin hd (List.mem_cons_self hd tl)) hlt
          · exact hpre t hmem
      · rw [if_neg hlt]
        have hxle : key x ≤ key hd := not_lt.mp hlt
        obtain ⟨pre, suf, hdec, hmin, hpre⟩ := ih x
        cases pre with
        | nil =>
            rw [List.nil_append] at hdec
            injection hdec with hm hsuf
            refine ⟨[], hd :: tl, ?_, ?_, by simp⟩
            · rw [List.nil_append, ← hm]
            · intro t ht
              rcases List.mem_cons.mp ht with rfl | hmem
              · rw [← hm]
              · rcases List.mem_cons.mp hmem with rfl | hmem2
                · rw [← hm]
                  exact hxle
                · exact hmin t (List.mem_cons_of_mem x hmem2)
        | cons p pre2 =>
            rw [List.cons_append] at hdec
            injection hdec with hxp htl
            have hmx : key (tl.foldl (fun best t => if key t < key best then t else best) x) <
                key x := by
              have h := hpre p (List.mem_cons_self p pre2)
              rw [← hxp] at h
              exact h
            refine ⟨x :: hd :: pre2, suf, ?_, ?_, ?_⟩
            · rw [List.cons_append, List.cons_append, ← htl]
            · intro t ht
              rcases List.mem_cons.mp ht with rfl | hmem
              · exact hmx.le
              · rcases List.mem_cons.mp hmem with rfl | hmem2
                · exact hmx.le.trans hxle
                · exact hmin t (List.mem_cons_of_mem x hmem2)
            · intro t ht
              rcases List.mem_cons.mp ht with rfl | hmem
              · exact hmx
              · rcases List.mem_cons.mp hmem with rfl | hmem2
                · exact lt_of_lt_of_le hmx hxle
                · exact hpre t (List.mem_cons_of_mem p hmem2)

/-! Monotonicity of the haversine distance in the inner term. -/

lemma haversine_eq_hdist (lat1 lon1 lat2 lon2 : ℝ) :
    haversine_km lat1 lon1 lat2 lon2 = hdist (hav_a lat1 lon1 lat2 lon2) := rfl

lemma atan2_one_zero : atan2 1 0 = π / 2 := by norm_num [atan2]

lemma atan2_sqrt_le {a b : ℝ} (h0 : 0 ≤ a) (hab : a ≤ b) (hb : b ≤ 1) :
    atan2 (Real.sqrt a) (Real.sqrt (1 - a)) ≤ atan2 (Real.sqrt b) (Real.sqrt (1 - b)) := by
  by_cases hb1 : b < 1
  · have hxa : 0 < Real.sqrt (1 - a) := Real.sqrt_pos.mpr (by linarith)
    have hxb : 0 < Real.sqrt (1 - b) := Real.sqrt_pos.mpr (by linarith)
    rw [atan2_of_pos hxa, atan2_of_pos hxb]
    apply Real.arctan_strictMono.monotone
    exact div_le_div₀ (Real.sqrt_nonneg b) (Real.sqrt_le_sqrt hab) hxb
      (Real.sqrt_le_sqrt (by linarith))
  · have hb1 : b = 1 := le_antisymm hb (not_lt.mp hb1)
    subst hb1
    rw [show (1 : ℝ) - 1 = 0 by norm_num, Real.sqrt_zero, Real.sqrt_one, atan2_one_zero]
    by_cases ha1 : a < 1
    · have hxa : 0 < Real.sqrt (1 - a) := Real.sqrt_pos.mpr (by linarith)
      rw [atan2_of_pos hxa]
      exact (Real.arctan_lt_pi_div_two _).le
    · have ha1 : a = 1 := le_antisymm hab (not_lt.mp ha1)
      subst ha1
      rw [show (1 : ℝ) - 1 = 0 by norm_num, Real.sqrt_zero, Real.sqrt_one, atan2_one_zero]

lemma hdist_le_hdist {a b : ℝ} (h0 : 0 ≤ a) (hab : a ≤ b) (hb : b ≤ 1) :
    hdist a ≤ hdist b := by
  have h := atan2_sqrt_le h0 hab hb
  rw [hdist, hdist]
  linarith

lemma haversine_le (p1 p2 q1 q2 r1 r2 : ℝ)
    (h0 : 0 ≤ hav_a p1 p2 q1 q2)
    (hab : hav_a p1 p2 q1 q2 ≤ hav_a p1 p2 r1 r2)
    (hb : hav_a p1 p2 r1 r2 ≤ 1) :
    haversine_km p1 p2 q1 q2 ≤ haversine_km p1 p2 r1 r2 := by
  rw [haversine_eq_hdist, haversine_eq_hdist]
  exact hdist_le_hdist h0 hab hb

/-! Numeric bounds for the concrete selection instance of claim C5:
satellite at (0.1, 0.1), candidate targets (0,0), (10,10), (-5,-5). -/

lemma sin_sq_le_sq_of_pos {x : ℝ} (hx : 0 < x) : sin x ^ 2 ≤ x ^ 2 := by
  have h1 : sin x < x := Real.sin_lt hx
  rcases le_or_lt 1 x with hge | hlt
  · have h2 := Real.neg_one_le_sin x
    nlinarith
  · have hpos : 0 < sin x :=
      Real.sin_pos_of_pos_of_lt_pi hx (lt_trans hlt (by nlinarith [Real.pi_gt_three]))
    nlinarith

lemma hav_sat_00_ub : hav_a 0.1 0.1 0 0 ≤ 0.0000016 := by
  have h01 : (0.1 : ℝ) = 1 / 10 := by norm_num
  simp only [hav_a]
  rw [h01]
  have e1 : (radians 0 - radians (1 / 10)) / 2 = -(π / 3600) := by
    simp only [radians]
    ring
  have e2 : radians (0 - 1 / 10) / 2 = -(π / 3600) := by
    simp only [radians]
    ring
  rw [e1, e2, Real.sin_neg, neg_sq, radians_zero, Real.cos_zero]
  have hu : 0 < π / 3600 := by positivity
  have hub : π / 3600 < 0.00087267 := by nlinarith [Real.pi_lt_d6]
  have hs := sin_sq_le_sq_of_pos hu
  have hss : sin (π / 3600) ^ 2 ≤ 0.00087267 ^ 2 := by nlinarith
  have hc : cos (radians (1 / 10)) ≤ 1 := Real.cos_le_one _
  nlinarith [sq_nonneg (sin (π / 3600)), hss, hc]

lemma hav_sat_1010_lb : (0.0074 : ℝ) ≤ hav_a 0.1 0.1 10 10 := by
  have h01 : (0.1 : ℝ) = 1 / 10 := by norm_num
  simp only [hav_a]
  rw [h01]
  have e1 : (radians 10 - radians (1 / 10)) / 2 = 11 * π / 400 := by
    simp only [radians]
    ring
  rw [e1]
  have hw0 : 0 < 11 * π / 400 := by positivity
  have hwl : (0.0863887 : ℝ) < 11 * π / 400 := by nlinarith [Real.pi_gt_d6]
  have hwu : 11 * π / 400 < 0.086394 := by nlinarith [Real.pi_lt_d6]
  have hw1 : 11 * π / 400 ≤ 1 := by linarith
  have hsin := Real.sin_gt_sub_cube hw0 hw1
  have hcube : (11 * π / 400) ^ 3 ≤ (0.086394 : ℝ) ^ 3 := by
    apply pow_le_pow_left₀ hw0.le hwu.le
  have hsl : (0.086227 : ℝ) < sin (11 * π / 400) := by nlinarith [hsin, hcube]
  have hc1 : 0 ≤ cos (radians (1 / 10)) := cos_radians_nonneg (by rw [abs_le]; norm_num)
  have hc2 : 0 ≤ cos (radians 10) := cos_radians_nonneg (by rw [abs_le]; norm_num)
  have hterm : 0 ≤ cos (radians (1 / 10)) * cos (radians 10) *
      sin (radians (10 - 1 / 10) / 2) ^ 2 :=
    mul_nonneg (mul_nonneg hc1 hc2) (sq_nonneg _)
  nlinarith [hsl, hterm]

lemma hav_sat_m5m5_lb : (0.0019 : ℝ) ≤ hav_a 0.1 0.1 (-5) (-5) := by
  have h01 : (0.1 : ℝ) = 1 / 10 := by norm_num
  simp only [hav_a]
  rw [h01]
  have e1 : (radians (-5) - radians (1 / 10)) / 2 = -(17 * π / 1200) := by
    simp only [radians]
    ring
  rw [e1, Real.sin_neg, neg_sq]
  have hv0 : 0 < 17 * π / 1200 := by positivity
  have hvl : (0.0445058 : ℝ) < 17 * π / 1200 := by nlinarith [Real.pi_gt_d6]
  have hvu : 17 * π / 1200 < 0.044506 := by nlinarith [Real.pi_lt_d6]
  have hv1 : 17 * π / 1200 ≤ 1 := by linarith
  have hsin := Real.sin_gt_sub_cube hv0 hv1
  have hcube : (17 * π / 1200) ^ 3 ≤ (0.044506 : ℝ) ^ 3 := by
    apply pow_le_pow_left₀ hv0.le hvu.le
  have hsl : (0.044483 : ℝ) < sin (17 * π / 1200) := by nlinarith [hsin, hcube]
  have hc1 : 0 ≤ cos (radians (1 / 10)) := cos_radians_nonneg (by rw [abs_le]; norm_num)
  have hc2 : 0 ≤ cos (radians (-5)) := cos_radians_nonneg (by rw [abs_le]; norm_num)
  have hterm : 0 ≤ cos (radians (1 / 10)) * cos (radians (-5)) *
      sin (radians (-5 - 1 / 10) / 2) ^ 2 :=
    mul_nonneg (mul_nonneg hc1 hc2) (sq_nonneg _)
  nlinarith [hsl, hterm]

lemma abs_01_le_90 : |(0.1 : ℝ)| ≤ 90 := by rw [abs_le]; norm_num

lemma haversine_00_le_1010 :
    haversine_km 0.1 0.1 0 0 ≤ haversine_km 0.1 0.1 10 10 := by
  apply haversine_le
  · exact hav_a_nonneg 0.1 0.1 0 0 abs_01_le_90 (by rw [abs_le]; norm_num)
  · have h1 := hav_sat_00_ub
    have h2 := hav_sat_1010_lb
    linarith
  · exact hav_a_le_one 0.1 0.1 10 10 abs_01_le_90 (by rw [abs_le]; norm_num)

lemma haversine_00_le_m5m5 :
    haversine_km 0.1 0.1 0 0 ≤ haversine_km 0.1 0.1 (-5) (-5) := by
  apply haversine_le
  · exact hav_a_nonneg 0.1 0.1 0 0 abs_01_le_90 (by rw [abs_le]; norm_num)
  · have h1 := hav_sat_00_ub
    have h2 := hav_sat_m5m5_lb
    linarith
  · exact hav_a_le_one 0.1 0.1 (-5) (-5) abs_01_le_90 (by rw [abs_le]; norm_num)

/-- C5: select_nearest_target returns, for every satellite position and
nonempty candidate list, a target of the list minimizing the horizontal
great-circle distance (altitude plays no role: targets carry none), the
returned target being the first occurrence of the minimum in iteration
order (everything before it in the list has strictly greater distance);
and in the concrete instance with targets (0,0), (10,10), (-5,-5) and
satellite at (0.1, 0.1) it returns (0,0). -/
theorem C5_select_nearest_target_first_min :
    (∀ (sat_lat sat_lon : ℝ) (targets : List (ℝ × ℝ)), targets ≠ [] →
      ∃ m pre suf, select_nearest_target sat_lat sat_lon targets = some m ∧
        targets = pre ++ m :: suf ∧
        (∀ t ∈ targets,
          haversine_km sat_lat sat_lon m.1 m.2 ≤ haversine_km sat_lat sat_lon t.1 t.2) ∧
        (∀ t ∈ pre,
          haversine_km sat_lat sat_lon m.1 m.2 < haversine_km sat_lat sat_lon t.1 t.2)) ∧
    select_nearest_target 0.1 0.1 [((0 : ℝ), 0), (10, 10), (-5, -5)] = some (0, 0) := by
  constructor
  · intro sat_lat sat_lon targets hne
    cases targets with
    | nil => exact absurd rfl hne
    | cons t0 ts =>
        obtain ⟨pre, suf, hdec, hmin, hpre⟩ :=
          foldl_min_spec (fun t : ℝ × ℝ => haversine_km sat_lat sat_lon t.1 t.2) ts t0
        exact ⟨_, pre, suf, rfl, hdec, hmin, hpre⟩
  · rw [select_nearest_cons]
    have h2 : ¬ (haversine_km 0.1 0.1 ((10 : ℝ), (10 : ℝ)).1 ((10 : ℝ), (10 : ℝ)).2 <
        haversine_km 0.1 0.1 ((0 : ℝ), (0 : ℝ)).1 ((0 : ℝ), (0 : ℝ)).2) :=
      not_lt.mpr haversine_00_le_1010
    have h3 : ¬ (haversine_km 0.1 0.1 ((-5 : ℝ), (-5 : ℝ)).1 ((-5 : ℝ), (-5 : ℝ)).2 <
        haversine_km 0.1 0.1 ((0 : ℝ), (0 : ℝ)).1 ((0 : ℝ), (0 : ℝ)).2) :=
      not_lt.mpr haversine_00_le_m5m5
    simp only [List.foldl_cons, List.foldl_nil]
    rw [if_neg h2, if_neg h3]

/-- C5 witness for the universally quantified part: a singleton
candidate list. -/
theorem C5_select_nearest_target_witness :
    ∃ m pre suf, select_nearest_target 3 4 [((7 : ℝ), 8)] = some m ∧
      [((7 : ℝ), 8)] = pre ++ m :: suf ∧
      (∀ t ∈ [((7 : ℝ), 8)], haversine_km 3 4 m.1 m.2 ≤ haversine_km 3 4 t.1 t.2) ∧
      (∀ t ∈ pre, haversine_km 3 4 m.1 m.2 < haversine_km 3 4 t.1 t.2) :=
  C5_select_nearest_target_first_min.1 3 4 [((7 : ℝ), 8)] (by simp)

end

end SatFeed
